import Mathlib

/-!
Verification of the `md2html.py` document converter (repository `HPMA_notice`).

The Python source is shallowly embedded below.  Strings are modelled as Lean
`String`/`List Char` (the repository's inputs are processed character-wise;
Python `str.strip`-family functions are modelled over the ASCII whitespace
characters they act on for this repository's data).  Fallible Python code
(uncaught exceptions such as `AttributeError` / `IndexError`) is modelled with
`Except String`.  Each definition carries a reference to the source lines it
embeds.
-/

namespace Md2Html

/-- A parsed tag node, the dict `{"type": ..., "content": ...}` built by
`find_tag_blocks` (md2html.py lines 54-92). -/
structure TagNode where
  type : String
  content : String
deriving DecidableEq, Repr

/-- A document block, the dict `{"hash": ..., "body": ...}` built by
`split_by_hash_blocks` (md2html.py lines 208-233). -/
structure Block where
  hash : Option String
  body : String
deriving DecidableEq, Repr

/-- A heading record of the table-of-contents builder
(md2html.py lines 250-254). -/
structure Heading where
  level : Nat
  title : String
  anchor : String
deriving DecidableEq, Repr

/-- The whitespace characters of Python's `str.strip()` (ASCII range). -/
def isPySpace (c : Char) : Bool :=
  c = ' ' || c = '\t' || c = '\n' || c = '\r' || c = '\x0b' || c = '\x0c'

/-- Drop the longest run of characters satisfying `p` from the END of a list
(the trailing half of Python's `str.strip()` / all of `str.rstrip()`). -/
def dropTrailWhile (p : Char → Bool) : List Char → List Char
  | [] => []
  | c :: rest =>
    let r := dropTrailWhile p rest
    if r = [] ∧ p c then [] else c :: r

/-- Python `str.strip()` on a character list. -/
def pyStripL (l : List Char) : List Char :=
  dropTrailWhile isPySpace (l.dropWhile isPySpace)

/-- Python `str.strip()`. -/
def pyStrip (s : String) : String :=
  String.mk (pyStripL s.data)

/-- Python `str.rstrip()` on a character list. -/
def pyRStripL (l : List Char) : List Char :=
  dropTrailWhile isPySpace l

/-- ASCII lowercasing of one character. -/
def lowerChar (c : Char) : Char :=
  if 'A' ≤ c && c ≤ 'Z' then Char.ofNat (c.toNat + 32) else c

/-- Python `str.lower()` (the tag names compared with it are ASCII). -/
def pyLower (s : String) : String :=
  String.mk (s.data.map lowerChar)

/-- Python `str.splitlines()` restricted to the line terminators that occur in
this repository's data (`\n`, `\r`, `\r\n`): each terminator emits the line
before it; a final unterminated line is emitted only when non-empty seen as a
trailing fragment (so `""` gives `[]` and `"a\n"` gives `["a"]`). -/
def splitPyLinesAux : List Char → List Char → List (List Char)
  | [], cur => if cur = [] then [] else [cur.reverse]
  | '\r' :: '\n' :: rest, cur => cur.reverse :: splitPyLinesAux rest []
  | '\n' :: rest, cur => cur.reverse :: splitPyLinesAux rest []
  | '\r' :: rest, cur => cur.reverse :: splitPyLinesAux rest []
  | c :: rest, cur => splitPyLinesAux rest (c :: cur)

/-- Python `str.splitlines()`. -/
def splitPyLines (l : List Char) : List (List Char) :=
  splitPyLinesAux l []

/-- Python `sep.join(xs)`. -/
def pyJoin (sep : String) : List String → String
  | [] => ""
  | [x] => x
  | x :: y :: xs => x ++ sep ++ pyJoin sep (y :: xs)

/-- `html.escape` on one character (quote=True): the five special characters
and their entities, in the standard-library replacement order `&`, `<`, `>`,
`"`, apostrophe (md2html.py lines 15-16 delegate to `html.escape`). -/
def escChar (c : Char) : List Char :=
  if c = '&' then ("&amp;").data
  else if c = '<' then ("&lt;").data
  else if c = '>' then ("&gt;").data
  else if c = '"' then ("&quot;").data
  else if c = '\'' then ("&#x27;").data
  else [c]

/-- `html.escape` over a character list.  The sequential `str.replace` calls
of the standard library are equivalent to this character-wise map because `&`
is replaced first and no produced entity contains a later-replaced char. -/
def escapeL : List Char → List Char
  | [] => []
  | c :: rest => escChar c ++ escapeL rest

/-- `escape` (md2html.py lines 15-16). -/
def escape (s : String) : String :=
  String.mk (escapeL s.data)

/-- Whether a character may appear in a special character class test. -/
def isSpecialChar (c : Char) : Bool :=
  c = '&' || c = '<' || c = '>' || c = '"' || c = '\''

/-- Split a list at the first occurrence of the pattern `pat`, returning the
text before it and the text after it (the scanning core of `re.search` for a
literal pattern, and of `str.find`). -/
def splitFirst (pat : List Char) : List Char → Option (List Char × List Char)
  | [] => none
  | c :: rest =>
    if pat.isPrefixOf (c :: rest) then some ([], (c :: rest).drop pat.length)
    else (splitFirst pat rest).map (fun p => (c :: p.1, p.2))

/-- The literal `[red+]` opening marker. -/
def redOpenPat : List Char := ("[red+]").data

/-- The literal `[red-]` closing marker. -/
def redClosePat : List Char := ("[red-]").data

/-- Opening of the produced highlight span. -/
def spanOpenL : List Char := ("<span class=\"red\">").data

/-- Closing of the produced highlight span. -/
def spanCloseL : List Char := ("</span>").data

/-- `red_replace` (md2html.py lines 18-20): `re.sub` with the lazy pattern
`\[red\+\](.*?)\[red-\]` under `re.S` replaces, left to right, each `[red+]`
open marker paired with the next `[red-]` close marker by a span whose
interior is escaped; if an open marker has no later close marker nothing after
the current position can match, so the remainder is emitted unchanged.  Fuel
is the input length, an upper bound on the number of replacements. -/
def redReplaceAux : Nat → List Char → List Char
  | 0, l => l
  | fuel + 1, l =>
    match splitFirst redOpenPat l with
    | none => l
    | some (before, after) =>
      match splitFirst redClosePat after with
      | none => l
      | some (mid, rest) =>
        before ++ spanOpenL ++ escapeL mid ++ spanCloseL ++ redReplaceAux fuel rest

/-- `red_replace` (md2html.py lines 18-20). -/
def red_replace (s : String) : String :=
  String.mk (redReplaceAux s.data.length s.data)

/-- The paragraph grouping loop of `paragraphize` (md2html.py lines 28-42):
consecutive non-blank lines are rstripped and joined with single spaces; blank
lines separate paragraphs. -/
def paragraphGroups : List (List Char) → List (List Char) → List String
  | [], cur =>
    if cur = [] then [] else [pyJoin (" ") (cur.reverse.map String.mk)]
  | ln :: rest, cur =>
    if pyStripL ln = [] then
      if cur = [] then paragraphGroups rest []
      else pyJoin (" ") (cur.reverse.map String.mk) :: paragraphGroups rest []
    else paragraphGroups rest (pyRStripL ln :: cur)

/-- `paragraphize` (md2html.py lines 22-42). -/
def paragraphize (text : String) : List String :=
  paragraphGroups (splitPyLines (pyStripL text.data)) []

/-- `render_paragraphs` (md2html.py lines 44-48): resolve `[red+]` spans, then
wrap each paragraph in a `<p>` element, joined by newlines.  Note that the
text outside `[red+]...[red-]` spans is NOT escaped here. -/
def render_paragraphs (text : String) : String :=
  pyJoin ("\n") ((paragraphize (red_replace text)).map (fun p => ("<p>") ++ p ++ ("</p>")))

/-- The character class `[A-Za-z0-9_+-]` of the tag-name pattern
(md2html.py line 65); `Char.isAlphanum` is exactly ASCII `[A-Za-z0-9]`. -/
def isTagChar (c : Char) : Bool :=
  c.isAlphanum || c = '_' || c = '+' || c = '-'

/-- Leftmost match of the opening-tag pattern `\[([A-Za-z0-9_+-]+)\]`
(md2html.py line 65/67): returns `(text before, tag name, text after)`.
At a position holding `[`, the greedy `+` takes the longest run of class
characters, which must be non-empty and followed by `]` (backtracking cannot
help because `]` is not a class character); otherwise the scan advances one
position, exactly like `re.search`. -/
def findTagOpen : List Char → Option (List Char × List Char × List Char)
  | [] => none
  | c :: rest =>
    if c = '[' then
      let name := rest.takeWhile isTagChar
      let rest2 := rest.dropWhile isTagChar
      if name ≠ [] ∧ rest2.head? = some ']' then some ([], name, rest2.drop 1)
      else (findTagOpen rest).map (fun p => (c :: p.1, p.2.1, p.2.2))
    else (findTagOpen rest).map (fun p => (c :: p.1, p.2.1, p.2.2))

/-- The literal closing delimiter `[-]` (md2html.py line 82). -/
def closeMarker : List Char := ['[', '-', ']']

/-- The scanning loop of `find_tag_blocks` (md2html.py lines 61-92).  Each
iteration: find the next opening tag; text before it (stripped, if non-empty)
becomes a `text` node; the content runs to the first following `[-]` (stripped),
or to the end of the span when no `[-]` exists, in which case scanning stops.
With no further opening tag, the stripped remainder becomes a final `text`
node.  Fuel is the input length, an upper bound on the iteration count. -/
def findTagBlocksAux : Nat → List Char → List TagNode
  | 0, _ => []
  | fuel + 1, s =>
    match findTagOpen s with
    | none =>
      let tail := pyStripL s
      if tail = [] then [] else [⟨("text"), String.mk tail⟩]
    | some (before, name, after) =>
      let pre : List TagNode :=
        let b := pyStripL before
        if b = [] then [] else [⟨("text"), String.mk b⟩]
      match splitFirst closeMarker after with
      | none => pre ++ [⟨String.mk name, String.mk (pyStripL after)⟩]
      | some (content, rest) =>
        pre ++ ⟨String.mk name, String.mk (pyStripL content)⟩ :: findTagBlocksAux fuel rest

/-- `find_tag_blocks` (md2html.py lines 54-92). -/
def find_tag_blocks (s : String) : List TagNode :=
  findTagBlocksAux s.data.length s.data

/-! ### JSON values and `json.loads`

The structured payloads of the `bannerT2` and `cardT` tags are parsed with the
standard-library `json.loads` (md2html.py lines 96 and 122).  We model JSON
values and the strict decoder; numbers are kept as their raw token (their
numeric value is never used by the renderer, only dict access and truthiness).
-/

/-- A Python value produced by `json.loads`. -/
inductive Json where
  | null : Json
  | bool (b : Bool) : Json
  | num (raw : String) : Json
  | str (s : String) : Json
  | arr (xs : List Json) : Json
  | obj (kvs : List (String × Json)) : Json

/-- The whitespace characters skipped by the JSON decoder. -/
def jsonWs (c : Char) : Bool :=
  c = ' ' || c = '\t' || c = '\n' || c = '\r'

/-- ASCII hex digit test. -/
def isHexDigitCh (c : Char) : Bool :=
  c.isDigit || ('a' ≤ c && c ≤ 'f') || ('A' ≤ c && c ≤ 'F')

/-- Value of an ASCII hex digit. -/
def hexVal (c : Char) : Nat :=
  if c.isDigit then c.toNat - 48
  else if 'a' ≤ c && c ≤ 'f' then c.toNat - 87
  else if 'A' ≤ c && c ≤ 'F' then c.toNat - 55
  else 0

/-- The single-character JSON string escapes. -/
def escSimple : Char → Option Char
  | '"' => some '"'
  | '\\' => some '\\'
  | '/' => some '/'
  | 'b' => some '\x08'
  | 'f' => some '\x0c'
  | 'n' => some '\n'
  | 'r' => some '\r'
  | 't' => some '\t'
  | _ => none

/-- JSON string body parser (after the opening quote): plain characters, the
simple escapes and `\uXXXX` (lone surrogates, which Python would pair, map to
the replacement of `Char.ofNat`; no input of this repository contains them);
unescaped control characters are rejected (strict mode).  Fuel bounds the
character count. -/
def parseJString : Nat → List Char → List Char → Option (String × List Char)
  | 0, _, _ => none
  | _ + 1, _, [] => none
  | _ + 1, acc, '"' :: rest => some (String.mk acc.reverse, rest)
  | fuel + 1, acc, '\\' :: 'u' :: h1 :: h2 :: h3 :: h4 :: rest =>
    if isHexDigitCh h1 && isHexDigitCh h2 && isHexDigitCh h3 && isHexDigitCh h4 then
      parseJString fuel
        (Char.ofNat (hexVal h1 * 4096 + hexVal h2 * 256 + hexVal h3 * 16 + hexVal h4) :: acc) rest
    else none
  | fuel + 1, acc, '\\' :: e :: rest =>
    match escSimple e with
    | some c => parseJString fuel (c :: acc) rest
    | none => none
  | _ + 1, _, ['\\'] => none
  | fuel + 1, acc, c :: rest =>
    if c.toNat < 32 then none else parseJString fuel (c :: acc) rest

/-- Integer part of a JSON number: `0` or a nonzero digit followed by digits. -/
def parseIntPart : List Char → Option (List Char × List Char)
  | '0' :: rest => some (['0'], rest)
  | c :: rest =>
    if c.isDigit then some (c :: rest.takeWhile Char.isDigit, rest.dropWhile Char.isDigit)
    else none
  | [] => none

/-- Optional fraction part `.digits` of a JSON number. -/
def parseFrac : List Char → Option (List Char × List Char)
  | '.' :: rest =>
    let ds := rest.takeWhile Char.isDigit
    if ds = [] then none else some ('.' :: ds, rest.dropWhile Char.isDigit)
  | cs => some ([], cs)

/-- Optional exponent part `[eE][+-]?digits` of a JSON number. -/
def parseExp : List Char → Option (List Char × List Char)
  | e :: rest =>
    if e = 'e' || e = 'E' then
      let (sg, rest2) : List Char × List Char :=
        match rest with
        | '+' :: r => (['+'], r)
        | '-' :: r => (['-'], r)
        | r => ([], r)
      let ds := rest2.takeWhile Char.isDigit
      if ds = [] then none else some (e :: sg ++ ds, rest2.dropWhile Char.isDigit)
    else some ([], e :: rest)
  | [] => some ([], [])

/-- A JSON number token, kept raw. -/
def parseNumber (cs : List Char) : Option (List Char × List Char) :=
  let (sgn, cs1) : List Char × List Char :=
    match cs with
    | '-' :: r => (['-'], r)
    | r => ([], r)
  match parseIntPart cs1 with
  | none => none
  | some (ip, cs2) =>
    match parseFrac cs2 with
    | none => none
    | some (fp, cs3) =>
      match parseExp cs3 with
      | none => none
      | some (ep, cs4) => some (sgn ++ ip ++ fp ++ ep, cs4)

mutual

/-- JSON value parser (Python's decoder also accepts the constants `NaN`,
`Infinity`, `-Infinity`).  Fuel bounds the recursion. -/
def parseValue : Nat → List Char → Option (Json × List Char)
  | 0, _ => none
  | fuel + 1, cs =>
    match cs.dropWhile jsonWs with
    | 'n' :: 'u' :: 'l' :: 'l' :: rest => some (.null, rest)
    | 't' :: 'r' :: 'u' :: 'e' :: rest => some (.bool true, rest)
    | 'f' :: 'a' :: 'l' :: 's' :: 'e' :: rest => some (.bool false, rest)
    | 'N' :: 'a' :: 'N' :: rest => some (.num ("NaN"), rest)
    | 'I' :: 'n' :: 'f' :: 'i' :: 'n' :: 'i' :: 't' :: 'y' :: rest =>
      some (.num ("Infinity"), rest)
    | '-' :: 'I' :: 'n' :: 'f' :: 'i' :: 'n' :: 'i' :: 't' :: 'y' :: rest =>
      some (.num ("-Infinity"), rest)
    | '"' :: rest => (parseJString fuel [] rest).map (fun p => (.str p.1, p.2))
    | '[' :: rest =>
      match rest.dropWhile jsonWs with
      | ']' :: r2 => some (.arr [], r2)
      | r => parseArrayElems fuel r []
    | '{' :: rest =>
      match rest.dropWhile jsonWs with
      | '}' :: r2 => some (.obj [], r2)
      | r => parseObjectItems fuel r []
    | cs2 => (parseNumber cs2).map (fun p => (.num (String.mk p.1), p.2))

/-- Comma-separated array elements up to `]`. -/
def parseArrayElems : Nat → List Char → List Json → Option (Json × List Char)
  | 0, _, _ => none
  | fuel + 1, cs, acc =>
    match parseValue fuel cs with
    | none => none
    | some (v, rest) =>
      match rest.dropWhile jsonWs with
      | ',' :: r2 => parseArrayElems fuel r2 (v :: acc)
      | ']' :: r2 => some (.arr (v :: acc).reverse, r2)
      | _ => none

/-- Comma-separated `"key": value` object items up to `}`. -/
def parseObjectItems : Nat → List Char → List (String × Json) → Option (Json × List Char)
  | 0, _, _ => none
  | fuel + 1, cs, acc =>
    match cs.dropWhile jsonWs with
    | '"' :: rest =>
      match parseJString fuel [] rest with
      | none => none
      | some (k, r1) =>
        match r1.dropWhile jsonWs with
        | ':' :: r3 =>
          match parseValue fuel r3 with
          | none => none
          | some (v, r4) =>
            match r4.dropWhile jsonWs with
            | ',' :: r6 => parseObjectItems fuel r6 ((k, v) :: acc)
            | '}' :: r6 => some (.obj ((k, v) :: acc).reverse, r6)
            | _ => none
        | _ => none
    | _ => none

end

/-- `json.loads`: parse one value, allow trailing whitespace only.  The fuel
`3·length + 16` exceeds the number of parser steps possible on the input. -/
def json_loads (s : String) : Option Json :=
  match parseValue (3 * s.data.length + 16) s.data with
  | none => none
  | some (v, rest) => if rest.dropWhile jsonWs = [] then some v else none

/-- Python dict lookup (`d[k]` semantics used by `.get`): with duplicate keys
in the source text the last one wins. -/
def objGetLast : List (String × Json) → String → Option Json
  | [], _ => none
  | (k, v) :: rest, key =>
    match objGetLast rest key with
    | some r => some r
    | none => if k = key then some v else none

/-- Python `x.get(key, dflt)`: only dict objects have `.get`; any other value
raises `AttributeError` (md2html.py lines 101-106 and 125-127 call `.get`
on values taken from the parsed payload without a type check). -/
def dictGet (j : Json) (key : String) (dflt : Json) : Except String Json :=
  match j with
  | .obj kvs => .ok ((objGetLast kvs key).getD dflt)
  | _ => .error ("AttributeError")

/-- Whether the digits of a raw number token denote zero. -/
def numIsZero (raw : String) : Bool :=
  if raw = ("NaN") || raw = ("Infinity") || raw = ("-Infinity") then false
  else (((raw.data.takeWhile (fun c => c ≠ 'e' ∧ c ≠ 'E')).filter Char.isDigit).all
    (fun c => c = '0'))

/-- Python truthiness of a parsed JSON value (used by the `or {}` guards,
md2html.py lines 101-102 and 125). -/
def jsonTruthy : Json → Bool
  | .null => false
  | .bool b => b
  | .num raw => ¬ numIsZero raw
  | .str s => s ≠ ""
  | .arr xs => !xs.isEmpty
  | .obj kvs => !kvs.isEmpty

/-- Python `x or {}` on a parsed JSON value. -/
def orEmptyDict (j : Json) : Json :=
  if jsonTruthy j then j else .obj []

/-- `html.escape` applied to a value extracted from the payload: it succeeds
only on strings; on any other Python value `str.replace` is missing and an
`AttributeError` is raised. -/
def pyEscapeVal : Json → Except String String
  | .str s => .ok (escape s)
  | _ => .error ("AttributeError")

/-- The body of `render_bannerT2` after a successful parse
(md2html.py lines 100-118): extract `img1`, `img2`, `path`s, `txt1`, `txt2`,
escape each leaf into the two-item banner template, `.strip()`ed. -/
def renderBannerObj (obj : Json) : Except String String := do
  let img1 ← dictGet obj ("img1") (.obj [])
  let img1 := orEmptyDict img1
  let img2 ← dictGet obj ("img2") (.obj [])
  let img2 := orEmptyDict img2
  let p1 ← dictGet img1 ("path") (.str (""))
  let p2 ← dictGet img2 ("path") (.str (""))
  let t1 ← dictGet obj ("txt1") (.str (""))
  let t2 ← dictGet obj ("txt2") (.str (""))
  let ep1 ← pyEscapeVal p1
  let et1 ← pyEscapeVal t1
  let ep2 ← pyEscapeVal p2
  let et2 ← pyEscapeVal t2
  pure (pyStrip (("\n<div class=\"bannerT2\">\n  <div class=\"banner-item\">\n    <img src=\"")
    ++ ep1 ++ ("\" alt=\"") ++ et1 ++ ("\"/>\n    <div class=\"caption\">") ++ et1
    ++ ("</div>\n  </div>\n  <div class=\"banner-item\">\n    <img src=\"")
    ++ ep2 ++ ("\" alt=\"") ++ et2 ++ ("\"/>\n    <div class=\"caption\">") ++ et2
    ++ ("</div>\n  </div>\n</div>\n")))

/-- `render_bannerT2` (md2html.py lines 94-118): a failed `json.loads` is
caught and yields the inline error fragment; everything after the parse runs
outside the `try` block. -/
def render_bannerT2 (json_text : String) : Except String String :=
  match json_loads json_text with
  | none =>
    .ok (("<div class=\"error\">Invalid bannerT2 JSON: ") ++ escape json_text ++ ("</div>"))
  | some obj => renderBannerObj obj

/-- The body of `render_cardT` after a successful parse
(md2html.py lines 125-133). -/
def renderCardObj (obj : Json) : Except String String := do
  let img ← dictGet obj ("img") (.obj [])
  let img := orEmptyDict img
  let p ← dictGet img ("path") (.str (""))
  let txt ← dictGet obj ("txt") (.str (""))
  let ep ← pyEscapeVal p
  let etxt ← pyEscapeVal txt
  pure (pyStrip (("\n<div class=\"cardT\">\n  <div class=\"card-img\"><img src=\"")
    ++ ep ++ ("\" alt=\"") ++ etxt ++ ("\"/></div>\n  <div class=\"card-txt\">") ++ etxt
    ++ ("</div>\n</div>\n")))

/-- `render_cardT` (md2html.py lines 120-133). -/
def render_cardT (json_text : String) : Except String String :=
  match json_loads json_text with
  | none =>
    .ok (("<div class=\"error\">Invalid cardT JSON: ") ++ escape json_text ++ ("</div>"))
  | some obj => renderCardObj obj

/-! ### The tag renderer `render_tag_sequence` (md2html.py lines 135-205) -/

/-- The structural-child test of the `smain` branch, verbatim from
md2html.py line 149: membership of the LOWERCASED child type in this tuple.
Note the tuple itself contains the mixed-case literals `bannerT2` and `cardT`,
which a lowercased string can never equal. -/
def structuralTypes : List String :=
  [("subtitle1"), ("subtitle2"), ("main"), ("bannerT2"), ("cardT")]

/-- The first-text-child heading lookup of the container branch
(md2html.py lines 152-157): the first `text` child's content is stripped and
its first line taken with `[0]`, which raises `IndexError` on an empty line
list (unreachable for scanner-produced nodes, whose text is non-empty). -/
def firstTextLine (sub : List TagNode) : Except String String :=
  match sub.find? (fun x => x.type = ("text")) with
  | none => .ok ("")
  | some x =>
    match splitPyLines (pyStripL x.content.data) with
    | [] => .error ("IndexError")
    | l :: _ => .ok (String.mk l)

/-- Rendering of one child node inside an `smain` container
(md2html.py lines 163-180), in source order: exact-case `text`, lowercased
`subtitle1`/`subtitle2`, exact-case `bannerT2`/`cardT`, lowercased `main`,
fallback paragraphs. -/
def renderChild (x : TagNode) : Except String String :=
  if x.type = ("text") then .ok (render_paragraphs x.content)
  else if pyLower x.type = ("subtitle1") then .ok (("<h3>") ++ x.content ++ ("</h3>"))
  else if pyLower x.type = ("subtitle2") then .ok (("<h4>") ++ x.content ++ ("</h4>"))
  else if x.type = ("bannerT2") then render_bannerT2 x.content
  else if x.type = ("cardT") then render_cardT x.content
  else if pyLower x.type = ("main") then
    .ok (("<div class=\"main\"><h2>") ++ x.content ++ ("</h2></div>"))
  else .ok (render_paragraphs x.content)

/-- Children of an `smain` container, sequentially (first raised exception
aborts, as in Python). -/
def renderChildren : List TagNode → Except String (List String)
  | [] => .ok []
  | x :: rest => do
    let s ← renderChild x
    let ys ← renderChildren rest
    pure (s :: ys)

/-- The buggy whitespace-normalisation call of the collapse branch,
verbatim from md2html.py line 184: `re.sub(r"\\s+", " ", c)`.  The raw string
`r"\\s+"` is the regex `\\s+`, i.e. a literal backslash followed by one or
more letters `s` — NOT a whitespace class — so each run of backslash+`s`...`s`
becomes one space and actual whitespace is left untouched.  Fuel is the input
length. -/
def bsSubAux : Nat → List Char → List Char
  | 0, l => l
  | _ + 1, [] => []
  | fuel + 1, '\\' :: 's' :: rest => ' ' :: bsSubAux fuel (rest.dropWhile (fun c => c = 's'))
  | fuel + 1, c :: rest => c :: bsSubAux fuel rest

/-- `re.sub(r"\\s+", " ", ·)` from md2html.py line 184. -/
def bsSub (s : String) : String :=
  String.mk (bsSubAux s.data.length s.data)

/-- Rendering of one top-level tag node: the strings this node appends to
`out` (md2html.py lines 141-204; the unused local `inner` of line 146 is
omitted as dead code).  Dispatch order as in the source: lowercased `smain`,
`main`, `subtitle1`, `subtitle2`, then exact-case `bannerT2`, `cardT`,
`text`, then the unknown-tag fallback that re-wraps the delimiters. -/
def renderNode (node : TagNode) : Except String (List String) :=
  let t := node.type
  let c := pyStrip node.content
  if pyLower t = ("smain") then
    let sub := find_tag_blocks c
    if sub.any (fun x => structuralTypes.contains (pyLower x.type)) then do
      let ft ← firstTextLine sub
      let head :=
        if ft ≠ ("") then ("<div class=\"smain\"><h2>") ++ escape ft ++ ("</h2>")
        else ("<div class=\"smain\">")
      let children ← renderChildren sub
      pure (head :: children ++ [("</div>")])
    else
      .ok [("<div class=\"smain\"><h2>") ++ escape (bsSub c) ++ ("</h2></div>")]
  else if pyLower t = ("main") then
    .ok [("<div class=\"main\"><h2>") ++ red_replace c ++ ("</h2></div>")]
  else if pyLower t = ("subtitle1") then .ok [("<h3>") ++ c ++ ("</h3>")]
  else if pyLower t = ("subtitle2") then .ok [("<h4>") ++ c ++ ("</h4>")]
  else if t = ("bannerT2") then (render_bannerT2 c).map (fun h => [h])
  else if t = ("cardT") then (render_cardT c).map (fun h => [h])
  else if t = ("text") then .ok [render_paragraphs c]
  else .ok [render_paragraphs (("[") ++ t ++ ("]") ++ c ++ ("[-]"))]

/-- All strings appended to `out` over the node sequence, sequentially. -/
def renderSeqParts : List TagNode → Except String (List String)
  | [] => .ok []
  | n :: rest => do
    let xs ← renderNode n
    let ys ← renderSeqParts rest
    pure (xs ++ ys)

/-- `render_tag_sequence` (md2html.py lines 135-205): `'\n'.join(out)`. -/
def render_tag_sequence (seq : List TagNode) : Except String String :=
  (renderSeqParts seq).map (fun parts => pyJoin ("\n") parts)

/-! ### The document splitter `split_by_hash_blocks` (md2html.py lines 208-233)

The header pattern is `^\s*###\s*hash:\s*(\S+)\s*$` with `re.M`.  We model
`re.finditer` over it directly: a match attempt is made at line starts; `\s*`
is a greedy whitespace run (it may span newlines), the literals `###` and
`hash:` follow, the group is a maximal non-whitespace run, and the trailing
`\s*$` takes the LONGEST whitespace run whose end position is the end of the
string or sits on a newline (greedy with backtracking on the multiline `$`).
-/

/-- The trailing `\s*$` of the header pattern: the largest `k` (at most the
whitespace-run length) such that position `k` of `s6` is the end of the
input or a newline. -/
def chooseEnd (s6 : List Char) : Nat → Option Nat
  | 0 => if s6 = [] ∨ s6.head? = some '\n' then some 0 else none
  | k + 1 =>
    if s6.drop (k + 1) = [] ∨ (s6.drop (k + 1)).head? = some '\n' then some (k + 1)
    else chooseEnd s6 k

/-- One attempt of the header pattern at the start of suffix `cs` (the `^`
anchor is checked by the caller): returns the captured token and how many
characters the match consumed. -/
def tryHeaderMatch (cs : List Char) : Option (String × Nat) :=
  let s1 := cs.dropWhile isPySpace
  match s1 with
  | '#' :: '#' :: '#' :: s2 =>
    match s2.dropWhile isPySpace with
    | 'h' :: 'a' :: 's' :: 'h' :: ':' :: s4 =>
      let s5 := s4.dropWhile isPySpace
      let tok := s5.takeWhile (fun c => !isPySpace c)
      if tok = [] then none
      else
        let s6 := s5.dropWhile (fun c => !isPySpace c)
        match chooseEnd s6 ((s6.takeWhile isPySpace).length) with
        | some k => some (String.mk tok, cs.length - s6.length + k)
        | none => none
    | _ => none
  | _ => none

/-- `re.finditer` over the header pattern: scan every position; at line
starts attempt a match; after a match continue from its end (matches never
overlap).  Returns `(start, end, token)` triples.  Fuel bounds the scan. -/
def findHeadersAux : Nat → Nat → Bool → List Char → List (Nat × Nat × String)
  | 0, _, _, _ => []
  | _ + 1, _, _, [] => []
  | fuel + 1, pos, atLineStart, c :: rest =>
    if atLineStart then
      match tryHeaderMatch (c :: rest) with
      | some (tok, len) =>
        (pos, pos + len, tok) ::
          findHeadersAux fuel (pos + len) ((c :: rest).get? (len - 1) = some '\n')
            ((c :: rest).drop len)
      | none => findHeadersAux fuel (pos + 1) (c = '\n') rest
    else findHeadersAux fuel (pos + 1) (c = '\n') rest

/-- All header matches of the input, in order. -/
def findHeaders (cs : List Char) : List (Nat × Nat × String) :=
  findHeadersAux (cs.length + 1) 0 true cs

/-- The slice `md_text[a:b]`. -/
def sliceL (cs : List Char) (a b : Nat) : List Char :=
  (cs.drop a).take (b - a)

/-- The per-match block list (md2html.py lines 227-232): hash is the token's
first 7 characters; the body runs from the match end to the next match start
(or the end of input), stripped. -/
def matchBlocks (cs : List Char) : List (Nat × Nat × String) → List Block
  | [] => []
  | (_, en, tok) :: rest =>
    let endBody :=
      match rest with
      | [] => cs.length
      | (st2, _, _) :: _ => st2
    ⟨some (tok.take 7), String.mk (pyStripL (sliceL cs en endBody))⟩ :: matchBlocks cs rest

/-- `split_by_hash_blocks` (md2html.py lines 208-233).  With no header match
the whole (unstripped) input is one hash-less block; otherwise a non-empty
stripped prefix before the first match becomes a leading hash-less block, each
match contributes its block, and the function returns `blocks[1:][::-1]` —
dropping the FIRST collected block unconditionally and reversing the rest. -/
def split_by_hash_blocks (s : String) : List Block :=
  let cs := s.data
  match findHeaders cs with
  | [] => [⟨none, s⟩]
  | (st0, _, _) :: _ =>
    let pre : List Block :=
      if st0 > 0 then
        let p := pyStripL (sliceL cs 0 st0)
        if p = [] then [] else [⟨none, String.mk p⟩]
      else []
    let blocks := pre ++ matchBlocks cs (findHeaders cs)
    (blocks.drop 1).reverse

/-! ### The table-of-contents builder `build_toc` (md2html.py lines 239-293)

The heading records are extracted from the rendered HTML by an external HTML
parser (BeautifulSoup, lines 240-254); we model the navigation-list generation
(lines 256-293) over a given record list.  In the source, every element pushed
onto `stack` is the SAME list object `toc_html` (line 274 pushes `stack[0]`),
so all appends go to one output list and only the stack LENGTH is observable;
we model the stack as its length, erroring where Python would raise
`IndexError` on an empty `stack`. -/

/-- A top-level TOC entry (md2html.py line 270). -/
def topLi (lvl : Nat) (anchor : String) (i : Nat) (title : String) : String :=
  ("<li class=\"toc-l") ++ toString lvl ++ ("\"><a href=\"#") ++ anchor
    ++ ("\" data-toc-index=\"") ++ toString i ++ ("\" class=\"toc-h2\">") ++ title ++ ("</a>")

/-- A sub-list TOC entry (md2html.py line 280). -/
def subLi (lvl : Nat) (anchor : String) (i : Nat) (title : String) : String :=
  ("<li class=\"toc-l") ++ toString lvl ++ ("\"><a href=\"#") ++ anchor
    ++ ("\" data-toc-index=\"") ++ toString i ++ ("\" class=\"toc-h3\">") ++ title ++ ("</a></li>")

/-- The `while last_level > 2` loop (md2html.py lines 264-267). -/
def closeWhile : Nat → Nat → List String → Except String (List String × Nat × Nat)
  | ll + 3, sl, out =>
    if sl = 0 then .error ("IndexError")
    else closeWhile (ll + 2) (sl - 1) (out ++ [("</ul>")])
  | ll, sl, out => .ok (out, sl, ll)

/-- The `for i, item in enumerate(toc)` loop (md2html.py lines 259-287),
threading the output list, the stack length and `last_level`. -/
def tocLoop : List Heading → Nat → Nat → Nat → List String → Except String (List String × Nat × Nat)
  | [], _, sl, ll, out => .ok (out, sl, ll)
  | item :: rest, i, sl, ll, out =>
    if item.level = 1 ∨ item.level = 2 then do
      let (out, sl, ll) ← closeWhile ll sl out
      let out := out ++ [topLi item.level item.anchor i item.title]
      match rest.head? with
      | some nxt =>
        if nxt.level > 2 then
          tocLoop rest (i + 1) (sl + 1) 3 (out ++ [("<ul class=\"toc-sub\" style=\"display:none;\">")])
        else tocLoop rest (i + 1) sl ll out
      | none => tocLoop rest (i + 1) sl ll out
    else if item.level = 3 ∨ item.level = 4 then
      if sl = 0 then .error ("IndexError")
      else
        let out := out ++ [subLi item.level item.anchor i item.title]
        match rest.head? with
        | none => tocLoop rest (i + 1) (sl - 1) 2 (out ++ [("</ul>")])
        | some nxt =>
          if nxt.level ≤ 2 then tocLoop rest (i + 1) (sl - 1) 2 (out ++ [("</ul>")])
          else tocLoop rest (i + 1) sl ll out
    else tocLoop rest (i + 1) sl ll out

/-- The final `while last_level > 1` loop (md2html.py lines 289-291): appends
`</ul>` through `stack[0]` without popping. -/
def finalWhile : Nat → Nat → List String → Except String (List String)
  | ll + 2, sl, out =>
    if sl = 0 then .error ("IndexError") else finalWhile (ll + 1) sl (out ++ [("</ul>")])
  | _, _, out => .ok out

/-- The TOC navigation HTML built from the heading records
(md2html.py lines 256-293): `''.join(toc_html)`. -/
def build_toc_html (toc : List Heading) : Except String String := do
  let out0 := [("<nav class=\"toc\"><strong>目录</strong><ul>")]
  let (out, sl, ll) ← tocLoop toc 0 1 1 out0
  let out ← finalWhile ll sl out
  pure (pyJoin ("") (out ++ [("</ul></nav>")]))

/-- Number of (possibly overlapping) occurrences of `pat` in a list. -/
def countSub (pat : List Char) : List Char → Nat
  | [] => 0
  | c :: rest => (if pat.isPrefixOf (c :: rest) then 1 else 0) + countSub pat rest

/-- Number of top-level TOC entries in a generated navigation string: the
`li` elements carrying class `toc-l1` or `toc-l2` (sub-entries carry
`toc-l3`/`toc-l4`). -/
def tocTopLevelCount (r : Except String String) : Nat :=
  match r with
  | .ok s => countSub (("<li class=\"toc-l1\"").data) s.data
      + countSub (("<li class=\"toc-l2\"").data) s.data
  | .error _ => 0

/-- Modelled from the spec: the rendering the spec prescribes for an
unrecognized tag — "passing the whole reconstituted string through the text
rendering path (paragraph splitter over escaped content)" — i.e. the
paragraph elements of the HTML-escaped reconstituted text.  Used only to
compare the code's actual unknown-tag rendering against the spec's words. -/
def render_paragraphs_escaped_spec (text : String) : String :=
  pyJoin ("\n") ((paragraphize (escape text)).map (fun p => ("<p>") ++ p ++ ("</p>")))

deriving instance DecidableEq for Except

/-- Example input: two header blocks (`abc1234`, then `def5678`) with no text
before the first header. -/
def exTwoBlocksNoPrefix : String := "### hash: abc1234\nA\n### hash: def5678\nB"

/-- Example input: the same two header blocks preceded by a non-empty
no-identifier prefix. -/
def exTwoBlocksWithPrefix : String := "intro\n### hash: abc1234\nA\n### hash: def5678\nB"

/-- Example heading records at levels `[1, 2, 3, 3, 2]`. -/
def exTocHeadings : List Heading :=
  [⟨1, ("A"), ("a1")⟩, ⟨2, ("B"), ("a2")⟩, ⟨3, ("C"), ("a3")⟩, ⟨3, ("D"), ("a4")⟩,
    ⟨2, ("E"), ("a5")⟩]

/-! ### Generic list lemmas -/

theorem isPrefixOf_iff_exists : ∀ (p l : List Char), p.isPrefixOf l = true ↔ ∃ t, l = p ++ t
  | [], l => by simp [List.isPrefixOf]
  | a :: as, [] => by simp [List.isPrefixOf]
  | a :: as, b :: bs => by
    show (a == b && as.isPrefixOf bs) = true ↔ _
    simp only [Bool.and_eq_true, beq_iff_eq, isPrefixOf_iff_exists as bs, List.cons_append,
      List.cons.injEq]
    constructor
    · rintro ⟨rfl, t, rfl⟩
      exact ⟨t, rfl, rfl⟩
    · rintro ⟨t, rfl, rfl⟩
      exact ⟨rfl, t, rfl⟩

theorem takeWhile_all_append (p : Char → Bool) (l : List Char) (c : Char) (r : List Char)
    (h : ∀ x ∈ l, p x = true) (hc : p c = false) : (l ++ c :: r).takeWhile p = l := by
  induction l with
  | nil => simp [List.takeWhile, hc]
  | cons a as ih =>
    simp only [List.cons_append, List.takeWhile]
    rw [h a (by simp)]
    simp [ih (fun x hx => h x (by simp [hx]))]

theorem dropWhile_all_append (p : Char → Bool) (l : List Char) (c : Char) (r : List Char)
    (h : ∀ x ∈ l, p x = true) (hc : p c = false) : (l ++ c :: r).dropWhile p = c :: r := by
  induction l with
  | nil => simp [List.dropWhile, hc]
  | cons a as ih =>
    simp only [List.cons_append, List.dropWhile]
    rw [h a (by simp)]
    exact ih (fun x hx => h x (by simp [hx]))

theorem dropWhile_append_left (p : Char → Bool) (l r : List Char) (h : l.dropWhile p ≠ []) :
    (l ++ r).dropWhile p = l.dropWhile p ++ r := by
  induction l with
  | nil => simp at h
  | cons a as ih =>
    by_cases hp : p a = true
    · simp only [List.dropWhile, hp] at h
      simp only [List.cons_append, List.dropWhile, hp]
      exact ih h
    · have hp2 : p a = false := by simpa using hp
      simp [List.dropWhile, hp2]

theorem dropTrailWhile_append_left (p : Char → Bool) (x y : List Char)
    (h : dropTrailWhile p y ≠ []) :
    dropTrailWhile p (x ++ y) = x ++ dropTrailWhile p y := by
  induction x with
  | nil => simp
  | cons a as ih =>
    show dropTrailWhile p (a :: (as ++ y)) = _
    rw [dropTrailWhile, ih]
    have h2 : ¬ (as ++ dropTrailWhile p y = []) := by simp [h]
    simp [h2]

/-! ### `splitFirst` lemmas -/

theorem splitFirst_nil (pat : List Char) : splitFirst pat [] = none := rfl

theorem splitFirst_at_start (p0 : Char) (pt rest : List Char) :
    splitFirst (p0 :: pt) (p0 :: (pt ++ rest)) = some ([], rest) := by
  have hpre : (p0 :: pt).isPrefixOf (p0 :: (pt ++ rest)) = true :=
    (isPrefixOf_iff_exists _ _).mpr ⟨rest, by simp⟩
  simp [splitFirst, hpre, List.drop_left]

theorem splitFirst_self_append (pat rest : List Char) (hpat : pat ≠ []) :
    splitFirst pat (pat ++ rest) = some ([], rest) := by
  cases pat with
  | nil => exact absurd rfl hpat
  | cons p0 pt => simpa [List.cons_append] using splitFirst_at_start p0 pt rest

theorem splitFirst_cons_none {pat : List Char} {c : Char} {l' : List Char}
    (h : splitFirst pat (c :: l') = none) :
    pat.isPrefixOf (c :: l') = false ∧ splitFirst pat l' = none := by
  cases hb : pat.isPrefixOf (c :: l') with
  | true => simp [splitFirst, hb] at h
  | false =>
    refine ⟨rfl, ?_⟩
    simp only [splitFirst, hb, Bool.false_eq_true, if_false] at h
    simpa [Option.map_eq_none'] using h

theorem splitFirst_append_marker (p0 : Char) (pt : List Char) (hov : p0 ∉ pt) :
    ∀ (l rest : List Char), splitFirst (p0 :: pt) l = none →
      splitFirst (p0 :: pt) (l ++ ((p0 :: pt) ++ rest)) = some (l, rest)
  | [], rest, _ => by simpa using splitFirst_at_start p0 pt rest
  | c :: l', rest, hno => by
    obtain ⟨hpre, hno'⟩ := splitFirst_cons_none hno
    have key : (p0 :: pt).isPrefixOf (c :: (l' ++ ((p0 :: pt) ++ rest))) = false := by
      cases hb : (p0 :: pt).isPrefixOf (c :: (l' ++ ((p0 :: pt) ++ rest))) with
      | false => rfl
      | true =>
        exfalso
        obtain ⟨t, ht⟩ := (isPrefixOf_iff_exists _ _).mp hb
        have hc : c = p0 := by
          have := congrArg List.head? ht
          simpa using this
        have hl : l' ++ ((p0 :: pt) ++ rest) = pt ++ t := by
          have := congrArg List.tail ht
          simpa using this
        rcases List.append_eq_append_iff.mp hl with ⟨a2, ha1, ha2⟩ | ⟨c2, hc1, _hc2⟩
        · cases a2 with
          | nil =>
            have hpt : pt = l' := by simpa using ha1
            have : (p0 :: pt).isPrefixOf (c :: l') = true :=
              (isPrefixOf_iff_exists _ _).mpr ⟨[], by simp [hc, hpt]⟩
            simp [this] at hpre
          | cons a0 a2' =>
            have hp0 : p0 = a0 := by
              have := congrArg List.head? ha2
              simpa using this
            exact hov (by rw [ha1, hp0]; simp)
        · have : (p0 :: pt).isPrefixOf (c :: l') = true :=
            (isPrefixOf_iff_exists _ _).mpr ⟨c2, by simp [hc, hc1]⟩
          simp [this] at hpre
    have ih := splitFirst_append_marker p0 pt hov l' rest hno'
    rw [List.cons_append]
    simp only [splitFirst, key, Bool.false_eq_true, if_false]
    rw [ih]
    rfl

theorem splitFirst_append_marker_pat (pat : List Char) (p0 : Char) (pt : List Char)
    (hpat : pat = p0 :: pt) (hov : p0 ∉ pt) (l rest : List Char)
    (hno : splitFirst pat l = none) :
    splitFirst pat (l ++ (pat ++ rest)) = some (l, rest) := by
  subst hpat
  exact splitFirst_append_marker p0 pt hov l rest hno

/-! ### Escape lemmas -/

theorem escChar_length_pos (c : Char) : 1 ≤ (escChar c).length := by
  unfold escChar
  split_ifs <;> first | decide | simp

theorem amp_mem_escChar {c : Char} (h : isSpecialChar c = true) :
    '&' ∈ escChar c ∧ 2 ≤ (escChar c).length := by
  simp only [isSpecialChar, Bool.or_eq_true, decide_eq_true_eq] at h
  rcases h with ((((h | h) | h) | h) | h) <;> subst h <;> exact (by decide)

theorem length_le_length_escapeL : ∀ l : List Char, l.length ≤ (escapeL l).length
  | [] => Nat.le_refl 0
  | c :: rest => by
    have h1 := escChar_length_pos c
    have h2 := length_le_length_escapeL rest
    simp only [escapeL, List.length_append, List.length_cons]
    omega

theorem amp_mem_escapeL : ∀ {l : List Char} {c : Char}, c ∈ l → isSpecialChar c = true →
    '&' ∈ escapeL l := by
  intro l
  induction l with
  | nil => intro c h; simp at h
  | cons a rest ih =>
    intro c hc hs
    rcases List.mem_cons.mp hc with rfl | hmem
    · exact List.mem_append_left _ (amp_mem_escChar hs).1
    · exact List.mem_append_right _ (ih hmem hs)

theorem length_lt_length_escapeL : ∀ {l : List Char} {c : Char}, c ∈ l →
    isSpecialChar c = true → l.length < (escapeL l).length := by
  intro l
  induction l with
  | nil => intro c h; simp at h
  | cons a rest ih =>
    intro c hc hs
    rcases List.mem_cons.mp hc with rfl | hmem
    · have h2 := (amp_mem_escChar hs).2
      have h3 := length_le_length_escapeL rest
      simp only [escapeL, List.length_append, List.length_cons]
      omega
    · have h1 := escChar_length_pos a
      have h3 := ih hmem hs
      simp only [escapeL, List.length_append, List.length_cons]
      omega

theorem escape_not_idempotent {s : String} (h : s.data.any isSpecialChar = true) :
    escape (escape s) ≠ escape s := by
  obtain ⟨c, hc, hs⟩ := List.any_eq_true.mp h
  have hamp : '&' ∈ escapeL s.data := amp_mem_escapeL hc hs
  have hlt : (escapeL s.data).length < (escapeL (escapeL s.data)).length :=
    length_lt_length_escapeL hamp (by decide)
  intro heq
  have hdata : escapeL (escapeL s.data) = escapeL s.data := by
    have := congrArg String.data heq
    simpa [escape] using this
  rw [hdata] at hlt
  exact Nat.lt_irrefl _ hlt

/-! ### `red_replace` lemma -/

theorem redReplaceAux_nil : ∀ fuel, redReplaceAux fuel [] = []
  | 0 => rfl
  | _ + 1 => rfl

theorem red_replace_wraps (mid : List Char) (h : splitFirst redClosePat mid = none) :
    red_replace (String.mk (redOpenPat ++ (mid ++ redClosePat))) =
      String.mk (spanOpenL ++ (escapeL mid ++ spanCloseL)) := by
  show String.mk (redReplaceAux (redOpenPat ++ (mid ++ redClosePat)).length
    (redOpenPat ++ (mid ++ redClosePat))) = _
  have h6 : redOpenPat.length = 6 := by decide
  have h6' : redClosePat.length = 6 := by decide
  have hlen : (redOpenPat ++ (mid ++ redClosePat)).length = (mid.length + 11) + 1 := by
    simp only [List.length_append, h6, h6']
    omega
  rw [hlen]
  have hopen : splitFirst redOpenPat (redOpenPat ++ (mid ++ redClosePat)) =
      some ([], mid ++ redClosePat) :=
    splitFirst_self_append redOpenPat (mid ++ redClosePat) (by decide)
  have hclose : splitFirst redClosePat (mid ++ redClosePat) = some (mid, []) := by
    have := splitFirst_append_marker_pat redClosePat '[' (("red-]").data) (by decide)
      (by decide) mid [] h
    simpa using this
  simp only [redReplaceAux, hopen, hclose, splitFirst_nil]
  simp [List.append_assoc]

/-! ### Scanner lemmas -/

theorem findTagOpen_at_start (tag after : List Char) (h1 : tag ≠ [])
    (h2 : ∀ c ∈ tag, isTagChar c = true) :
    findTagOpen ('[' :: (tag ++ ']' :: after)) = some ([], tag, after) := by
  have ht := takeWhile_all_append isTagChar tag ']' after h2 (by decide)
  have hd := dropWhile_all_append isTagChar tag ']' after h2 (by decide)
  simp [findTagOpen, ht, hd, h1]

theorem findTagBlocksAux_nil : ∀ fuel, findTagBlocksAux fuel [] = []
  | 0 => rfl
  | _ + 1 => rfl

theorem findTagOpen_nil : findTagOpen [] = none := rfl

theorem pyStripL_nil : pyStripL [] = [] := rfl

/-! ### Stripping the banner/card f-string templates -/

theorem append_ne_nil_right (x y : List Char) (h : y ≠ []) : x ++ y ≠ [] := by
  intro hcon
  exact h (List.append_eq_nil.mp hcon).2

theorem pyStrip_card_template (a b : String) :
    pyStrip (("\n<div class=\"cardT\">\n  <div class=\"card-img\"><img src=\"")
      ++ a ++ ("\" alt=\"") ++ b ++ ("\"/></div>\n  <div class=\"card-txt\">") ++ b
      ++ ("</div>\n</div>\n")) =
    ("<div class=\"cardT\">\n  <div class=\"card-img\"><img src=\"")
      ++ a ++ ("\" alt=\"") ++ b ++ ("\"/></div>\n  <div class=\"card-txt\">") ++ b
      ++ ("</div>\n</div>") := by
  apply String.ext
  simp only [pyStrip, String.data_append, List.append_assoc]
  unfold pyStripL
  rw [dropWhile_append_left _ _ _ (by decide)]
  rw [show (("\n<div class=\"cardT\">\n  <div class=\"card-img\"><img src=\"" : String)).data.dropWhile isPySpace
    = (("<div class=\"cardT\">\n  <div class=\"card-img\"><img src=\"" : String)).data from by decide]
  have m0 : (("</div>\n</div>" : String)).data ≠ [] := by decide
  have m1 : b.data ++ (("</div>\n</div>" : String)).data ≠ [] := append_ne_nil_right _ _ m0
  have m2 : (("\"/></div>\n  <div class=\"card-txt\">" : String)).data
      ++ (b.data ++ (("</div>\n</div>" : String)).data) ≠ [] := append_ne_nil_right _ _ m1
  have m3 : b.data ++ ((("\"/></div>\n  <div class=\"card-txt\">" : String)).data
      ++ (b.data ++ (("</div>\n</div>" : String)).data)) ≠ [] := append_ne_nil_right _ _ m2
  have m4 : (("\" alt=\"" : String)).data ++ (b.data
      ++ ((("\"/></div>\n  <div class=\"card-txt\">" : String)).data
      ++ (b.data ++ (("</div>\n</div>" : String)).data))) ≠ [] := append_ne_nil_right _ _ m3
  have h0 : dropTrailWhile isPySpace (("</div>\n</div>\n" : String)).data
      = (("</div>\n</div>" : String)).data := by decide
  have n0 : dropTrailWhile isPySpace (("</div>\n</div>\n" : String)).data ≠ [] := by decide
  have h1 : dropTrailWhile isPySpace (b.data ++ (("</div>\n</div>\n" : String)).data)
      = b.data ++ (("</div>\n</div>" : String)).data := by
    rw [dropTrailWhile_append_left _ _ _ n0, h0]
  have n1 : dropTrailWhile isPySpace (b.data ++ (("</div>\n</div>\n" : String)).data) ≠ [] := by
    rw [h1]; exact m1
  have h2 : dropTrailWhile isPySpace ((("\"/></div>\n  <div class=\"card-txt\">" : String)).data
      ++ (b.data ++ (("</div>\n</div>\n" : String)).data))
      = (("\"/></div>\n  <div class=\"card-txt\">" : String)).data
        ++ (b.data ++ (("</div>\n</div>" : String)).data) := by
    rw [dropTrailWhile_append_left _ _ _ n1, h1]
  have n2 : dropTrailWhile isPySpace ((("\"/></div>\n  <div class=\"card-txt\">" : String)).data
      ++ (b.data ++ (("</div>\n</div>\n" : String)).data)) ≠ [] := by
    rw [h2]; exact m2
  have h3 : dropTrailWhile isPySpace (b.data
      ++ ((("\"/></div>\n  <div class=\"card-txt\">" : String)).data
      ++ (b.data ++ (("</div>\n</div>\n" : String)).data)))
      = b.data ++ ((("\"/></div>\n  <div class=\"card-txt\">" : String)).data
        ++ (b.data ++ (("</div>\n</div>" : String)).data)) := by
    rw [dropTrailWhile_append_left _ _ _ n2, h2]
  have n3 : dropTrailWhile isPySpace (b.data
      ++ ((("\"/></div>\n  <div class=\"card-txt\">" : String)).data
      ++ (b.data ++ (("</div>\n</div>\n" : String)).data))) ≠ [] := by
    rw [h3]; exact m3
  have h4 : dropTrailWhile isPySpace ((("\" alt=\"" : String)).data
      ++ (b.data ++ ((("\"/></div>\n  <div class=\"card-txt\">" : String)).data
      ++ (b.data ++ (("</div>\n</div>\n" : String)).data))))
      = (("\" alt=\"" : String)).data ++ (b.data
        ++ ((("\"/></div>\n  <div class=\"card-txt\">" : String)).data
        ++ (b.data ++ (("</div>\n</div>" : String)).data))) := by
    rw [dropTrailWhile_append_left _ _ _ n3, h3]
  have n4 : dropTrailWhile isPySpace ((("\" alt=\"" : String)).data
      ++ (b.data ++ ((("\"/></div>\n  <div class=\"card-txt\">" : String)).data
      ++ (b.data ++ (("</div>\n</div>\n" : String)).data)))) ≠ [] := by
    rw [h4]; exact m4
  have h5 : dropTrailWhile isPySpace (a.data ++ ((("\" alt=\"" : String)).data
      ++ (b.data ++ ((("\"/></div>\n  <div class=\"card-txt\">" : String)).data
      ++ (b.data ++ (("</div>\n</div>\n" : String)).data)))))
      = a.data ++ ((("\" alt=\"" : String)).data ++ (b.data
        ++ ((("\"/></div>\n  <div class=\"card-txt\">" : String)).data
        ++ (b.data ++ (("</div>\n</div>" : String)).data)))) := by
    rw [dropTrailWhile_append_left _ _ _ n4, h4]
  have n5 : dropTrailWhile isPySpace (a.data ++ ((("\" alt=\"" : String)).data
      ++ (b.data ++ ((("\"/></div>\n  <div class=\"card-txt\">" : String)).data
      ++ (b.data ++ (("</div>\n</div>\n" : String)).data))))) ≠ [] := by
    rw [h5]; exact append_ne_nil_right _ _ m4
  rw [dropTrailWhile_append_left _ _ _ n5, h5]

theorem renderCardObj_ok (p t : String) :
    renderCardObj (Json.obj [(("img"), Json.obj [(("path"), Json.str p)]), (("txt"), Json.str t)]) =
      Except.ok ((("<div class=\"cardT\">\n  <div class=\"card-img\"><img src=\"") ++ escape p
        ++ ("\" alt=\"") ++ escape t ++ ("\"/></div>\n  <div class=\"card-txt\">") ++ escape t
        ++ ("</div>\n</div>"))) := by
  have h : renderCardObj (Json.obj [(("img"), Json.obj [(("path"), Json.str p)]),
      (("txt"), Json.str t)]) =
      Except.ok (pyStrip (("\n<div class=\"cardT\">\n  <div class=\"card-img\"><img src=\"")
        ++ escape p ++ ("\" alt=\"") ++ escape t
        ++ ("\"/></div>\n  <div class=\"card-txt\">") ++ escape t
        ++ ("</div>\n</div>\n"))) := rfl
  rw [h, pyStrip_card_template]

/-! ### Claim theorems -/

/-- Claim C1, counterexample: with the two header blocks `abc1234`, `def5678`
and NO leading prefix text, the splitter emits only the `def5678` block — the
`abc1234` block is dropped by the unconditional `blocks[1:]` slice, so the
output is not "all identifier-bearing blocks reversed". -/
theorem c1_counterexample :
    split_by_hash_blocks exTwoBlocksNoPrefix = [⟨some ("def5678"), ("B")⟩] ∧
    split_by_hash_blocks exTwoBlocksNoPrefix ≠
      [⟨some ("def5678"), ("B")⟩, ⟨some ("abc1234"), ("A")⟩] := by
  constructor <;> decide

/-- Claim C1, amended: the splitter drops its FIRST collected block
unconditionally — the leading no-identifier block when one is present,
otherwise the first identifier-bearing block — and emits the remaining blocks
reversed; with a non-empty leading prefix the two sections appear in order
`def5678` then `abc1234`. -/
theorem c1_first_block_dropped_then_reversed :
    split_by_hash_blocks exTwoBlocksWithPrefix =
      [⟨some ("def5678"), ("B")⟩, ⟨some ("abc1234"), ("A")⟩] ∧
    split_by_hash_blocks exTwoBlocksNoPrefix = [⟨some ("def5678"), ("B")⟩] := by
  constructor <;> decide

/-- Claim C2, counterexample: the payload `null` is parsed successfully by
`json.loads`, and then `.get` on the resulting `None` raises an uncaught
`AttributeError` in both renderers — rendering CAN abort the run. -/
theorem c2_counterexample :
    render_cardT (("null")) = Except.error (("AttributeError")) ∧
    render_bannerT2 (("null")) = Except.error (("AttributeError")) := by
  constructor <;> rfl

/-- Claim C2, amended: for every payload on which `json.loads` fails, both
renderers return (never raise) the visible inline error fragment containing
the HTML-escaped raw payload; only payloads that parse to a value of
unexpected shape can raise. -/
theorem c2_parse_failure_error_fragment (s : String) (h : json_loads s = none) :
    render_cardT s =
      Except.ok (("<div class=\"error\">Invalid cardT JSON: ") ++ escape s ++ ("</div>")) ∧
    render_bannerT2 s =
      Except.ok (("<div class=\"error\">Invalid bannerT2 JSON: ") ++ escape s ++ ("</div>")) := by
  constructor <;> simp [render_cardT, render_bannerT2, h]

/-- Witness for C2 at the truncated payload of the spec's example. -/
theorem c2_parse_failure_error_fragment_witness :
    json_loads (("\x7b\"img\":")) = none ∧
    render_cardT (("\x7b\"img\":")) =
      Except.ok (("<div class=\"error\">Invalid cardT JSON: ")
        ++ escape (("\x7b\"img\":")) ++ ("</div>")) ∧
    render_bannerT2 (("\x7b\"img\":")) =
      Except.ok (("<div class=\"error\">Invalid bannerT2 JSON: ")
        ++ escape (("\x7b\"img\":")) ++ ("</div>")) :=
  ⟨by rfl, (c2_parse_failure_error_fragment (("\x7b\"img\":")) (by rfl)).1,
    (c2_parse_failure_error_fragment (("\x7b\"img\":")) (by rfl)).2⟩

/-- Claim C3: (i) escaping twice differs from escaping once whenever the
string contains one of the five special characters; (ii) the inline-markup
resolver inserts the escape of a span's interior exactly once; (iii) the
single-card renderer's post-parse body embeds each payload leaf value escaped
exactly once (singly-escaped, neither raw nor doubly-escaped). -/
theorem c3_escape_once_semantics :
    (∀ s : String, s.data.any isSpecialChar = true → escape (escape s) ≠ escape s) ∧
    (∀ mid : List Char, splitFirst redClosePat mid = none →
      red_replace (String.mk (redOpenPat ++ (mid ++ redClosePat))) =
        String.mk (spanOpenL ++ (escapeL mid ++ spanCloseL))) ∧
    (∀ p t : String,
      renderCardObj (Json.obj [(("img"), Json.obj [(("path"), Json.str p)]),
          (("txt"), Json.str t)]) =
        Except.ok ((("<div class=\"cardT\">\n  <div class=\"card-img\"><img src=\"")
          ++ escape p ++ ("\" alt=\"") ++ escape t
          ++ ("\"/></div>\n  <div class=\"card-txt\">") ++ escape t ++ ("</div>\n</div>")))) :=
  ⟨fun _ h => escape_not_idempotent h, fun mid h => red_replace_wraps mid h,
    fun p t => renderCardObj_ok p t⟩

/-- Witness for C3 at concrete special-character-bearing values. -/
theorem c3_escape_once_semantics_witness :
    ((("<a" : String)).data.any isSpecialChar = true ∧
      escape (escape (("<a"))) ≠ escape (("<a"))) ∧
    (splitFirst redClosePat ((("a<b" : String)).data) = none ∧
      red_replace (String.mk (redOpenPat ++ (((("a<b" : String)).data ++ redClosePat)))) =
        String.mk (spanOpenL ++ (escapeL ((("a<b" : String)).data) ++ spanCloseL))) ∧
    renderCardObj (Json.obj [(("img"), Json.obj [(("path"), Json.str (("x")))]),
        (("txt"), Json.str (("<")))]) =
      Except.ok ((("<div class=\"cardT\">\n  <div class=\"card-img\"><img src=\"")
        ++ escape (("x")) ++ ("\" alt=\"") ++ escape (("<"))
        ++ ("\"/></div>\n  <div class=\"card-txt\">") ++ escape (("<")) ++ ("</div>\n</div>"))) :=
  ⟨⟨by decide, c3_escape_once_semantics.1 (("<a")) (by decide)⟩,
    ⟨by decide, c3_escape_once_semantics.2.1 ((("a<b" : String)).data) (by decide)⟩,
    c3_escape_once_semantics.2.2 (("x")) (("<"))⟩

set_option maxRecDepth 8000 in
/-- Claim C4 (code bug): a section whose nested scan yields a `cardT` child is
NOT treated as a container — line 149 compares the LOWERCASED child type
against the mixed-case literals `bannerT2`/`cardT`, which can never match, so
the section collapses to a single heading showing the raw payload. -/
theorem c4_cardT_child_not_structural :
    find_tag_blocks (("[cardT]\x7b\"txt\":\"hi\"\x7d[-]")) =
      [⟨("cardT"), ("\x7b\"txt\":\"hi\"\x7d")⟩] ∧
    render_tag_sequence [⟨("Smain"), ("[cardT]\x7b\"txt\":\"hi\"\x7d[-]")⟩] =
      Except.ok
        (("<div class=\"smain\"><h2>[cardT]\x7b&quot;txt&quot;:&quot;hi&quot;\x7d[-]</h2></div>")) := by
  constructor <;> decide

set_option maxRecDepth 8000 in
/-- Claim C5 (code bug): the collapse branch calls `re.sub(r"\\s+", " ", c)`,
whose pattern matches a literal backslash followed by letters `s` — not
whitespace — so `a\nb` keeps its newline (first conjunct) while a literal
`a\ssb` becomes `a b` (second conjunct). -/
theorem c5_collapse_keeps_whitespace :
    render_tag_sequence [⟨("Smain"), ("a\nb")⟩] =
      Except.ok (("<div class=\"smain\"><h2>a\nb</h2></div>")) ∧
    render_tag_sequence [⟨("Smain"), ("a\\ssb")⟩] =
      Except.ok (("<div class=\"smain\"><h2>a b</h2></div>")) := by
  constructor <;> decide

/-- Claim C6, counterexample: an unknown tag's content is NOT HTML-escaped by
the fallback — the output contains the raw `<x>`, not the escaped rendering
the spec prescribes. -/
theorem c6_unknown_tag_not_escaped :
    render_tag_sequence [⟨("foo"), ("<x>")⟩] = Except.ok (("<p>[foo]<x>[-]</p>")) ∧
    render_tag_sequence [⟨("foo"), ("<x>")⟩] ≠
      Except.ok (render_paragraphs_escaped_spec (("[foo]<x>[-]"))) := by
  constructor <;> decide

/-- Claim C6, amended: every unrecognized tag is re-wrapped in its original
delimiters and rendered through the text path (inline resolver + paragraph
splitter) WITHOUT additional escaping; it is never an error and never
dropped. -/
theorem c6_unknown_tag_literal_passthrough (node : TagNode)
    (hs : pyLower node.type ≠ ("smain")) (hm : pyLower node.type ≠ ("main"))
    (h1 : pyLower node.type ≠ ("subtitle1")) (h2 : pyLower node.type ≠ ("subtitle2"))
    (hb : node.type ≠ ("bannerT2")) (hc : node.type ≠ ("cardT"))
    (ht : node.type ≠ ("text")) :
    render_tag_sequence [node] =
      Except.ok (render_paragraphs (("[") ++ node.type ++ ("]")
        ++ pyStrip node.content ++ ("[-]"))) := by
  simp [render_tag_sequence, renderSeqParts, renderNode, hs, hm, h1, h2, hb, hc, ht,
    pyJoin, Bind.bind, Except.bind, Functor.map, Except.map, pure, Except.pure]

/-- Witness for C6 at the unknown tag `foo` with content `<x>`. -/
theorem c6_unknown_tag_literal_passthrough_witness :
    pyLower (("foo")) ≠ ("smain") ∧
    render_tag_sequence [⟨("foo"), ("<x>")⟩] =
      Except.ok (render_paragraphs (("[") ++ ("foo") ++ ("]")
        ++ pyStrip (("<x>")) ++ ("[-]"))) :=
  ⟨by decide, c6_unknown_tag_literal_passthrough ⟨("foo"), ("<x>")⟩ (by decide) (by decide)
    (by decide) (by decide) (by decide) (by decide) (by decide)⟩

/-- Claim C7, counterexample: with no header line the splitter returns the
body UNTRIMMED — on input `" x "` the block body is `" x "`, not the trimmed
`"x"` the claim states. -/
theorem c7_body_not_trimmed :
    split_by_hash_blocks ((" x ")) = [⟨none, (" x ")⟩] ∧
    split_by_hash_blocks ((" x ")) ≠ [⟨none, pyStrip ((" x "))⟩] := by
  constructor <;> decide

/-- Claim C7, amended: for every input with no header match, the splitter
returns exactly one block with no identifier whose body is the full input
unchanged (not trimmed). -/
theorem c7_no_header_single_block (s : String) (h : findHeaders s.data = []) :
    split_by_hash_blocks s = [⟨none, s⟩] := by
  simp [split_by_hash_blocks, h]

/-- Witness for C7 at a headerless input. -/
theorem c7_no_header_single_block_witness :
    findHeaders ((("hello" : String)).data) = [] ∧
    split_by_hash_blocks (("hello")) = [⟨none, ("hello")⟩] :=
  ⟨by decide, c7_no_header_single_block (("hello")) (by decide)⟩

set_option maxRecDepth 8000 in
/-- Claim C8, counterexample: heading levels `[1, 2, 3, 3, 2]` produce THREE
top-level navigation entries (the level-1 heading is also a top-level entry),
not the two the claim states. -/
theorem c8_three_top_entries :
    tocTopLevelCount (build_toc_html exTocHeadings) = 3 ∧ (3 : Nat) ≠ 2 := by
  constructor <;> decide

set_option maxRecDepth 8000 in
/-- Claim C8, amended: for heading levels `[1, 2, 3, 3, 2]` the builder emits
exactly three top-level entries — the level-1 heading and both level-2
headings — where the first level-2 entry carries the two-item
initially-collapsed (`display:none`) sublist and the other entries none. -/
theorem c8_toc_structure (t1 t2 t3 t4 t5 a1 a2 a3 a4 a5 : String) :
    build_toc_html [⟨1, t1, a1⟩, ⟨2, t2, a2⟩, ⟨3, t3, a3⟩, ⟨3, t4, a4⟩, ⟨2, t5, a5⟩] =
      Except.ok (pyJoin ("") [("<nav class=\"toc\"><strong>目录</strong><ul>"),
        topLi 1 a1 0 t1, topLi 2 a2 1 t2, ("<ul class=\"toc-sub\" style=\"display:none;\">"),
        subLi 3 a3 2 t3, subLi 3 a4 3 t4, ("</ul>"), topLi 2 a5 4 t5, ("</ul>"),
        ("</ul></nav>")]) := rfl

/-- Claim C9: a well-formed span `[tag]content[-]` whose tag consists of the
scanner's name characters and whose content contains no `[-]` marker yields
exactly one node, typed with the tag name, whose content is the interior
trimmed. -/
theorem c9_scanner_single_tag (tag content : List Char) (h1 : tag ≠ [])
    (h2 : ∀ c ∈ tag, isTagChar c = true)
    (h3 : splitFirst closeMarker content = none) :
    find_tag_blocks (String.mk ('[' :: (tag ++ ']' :: (content ++ closeMarker)))) =
      [⟨String.mk tag, String.mk (pyStripL content)⟩] := by
  have hopen := findTagOpen_at_start tag (content ++ closeMarker) h1 h2
  have hclose : splitFirst closeMarker (content ++ closeMarker) = some (content, []) := by
    have := splitFirst_append_marker_pat closeMarker '[' (['-', ']']) rfl (by decide)
      content [] h3
    simpa using this
  have hlen : ('[' :: (tag ++ ']' :: (content ++ closeMarker))).length
      = (tag.length + content.length + 4) + 1 := by
    simp only [closeMarker, List.length_append, List.length_cons, List.length_nil]
    omega
  show findTagBlocksAux ('[' :: (tag ++ ']' :: (content ++ closeMarker))).length
      ('[' :: (tag ++ ']' :: (content ++ closeMarker))) = _
  rw [hlen]
  simp only [findTagBlocksAux, hopen, hclose, findTagOpen_nil, findTagBlocksAux_nil,
    pyStripL_nil]
  simp

/-- Witness for C9 at the span `[ab]x y[-]`. -/
theorem c9_scanner_single_tag_witness :
    find_tag_blocks (String.mk ('[' :: ((("ab" : String)).data
        ++ ']' :: ((("x y" : String)).data ++ closeMarker)))) =
      [⟨String.mk ((("ab" : String)).data), String.mk (pyStripL ((("x y" : String)).data))⟩] :=
  c9_scanner_single_tag ((("ab" : String)).data) ((("x y" : String)).data)
    (by decide) (by decide) (by decide)

/-- Claim C10, counterexample: on the span `[foo] x ` (open marker, no close
marker) the emitted content is the remainder TRIMMED (`"x"`), not the raw
remainder `" x "` the claim states. -/
theorem c10_unterminated_not_trimmed :
    find_tag_blocks (("[foo] x ")) = [⟨("foo"), ("x")⟩] ∧
    find_tag_blocks (("[foo] x ")) ≠ [⟨("foo"), (" x ")⟩] := by
  constructor <;> decide

/-- Claim C10, amended: when the scanner finds an opening tag and no `[-]`
follows, it emits (after the usual stripped text node for any text before the
tag) that tag with content equal to the remainder of the span trimmed, and
scanning terminates; the case is recovered locally, not an error. -/
theorem c10_unterminated_rest_as_content (s before name after : List Char)
    (hopen : findTagOpen s = some (before, name, after))
    (hclose : splitFirst closeMarker after = none) :
    find_tag_blocks (String.mk s) =
      (if pyStripL before = [] then ([] : List TagNode)
        else [⟨("text"), String.mk (pyStripL before)⟩])
      ++ [⟨String.mk name, String.mk (pyStripL after)⟩] := by
  cases s with
  | nil => simp [findTagOpen] at hopen
  | cons c cs =>
    show findTagBlocksAux (c :: cs).length (c :: cs) = _
    rw [List.length_cons]
    simp only [findTagBlocksAux, hopen, hclose]

/-- Witness for C10 at the span `x[foo] y`. -/
theorem c10_unterminated_rest_as_content_witness :
    findTagOpen ((("x[foo] y" : String)).data) =
      some ((("x" : String)).data, (("foo" : String)).data, ((" y" : String)).data) ∧
    splitFirst closeMarker (((" y" : String)).data) = none ∧
    find_tag_blocks (String.mk ((("x[foo] y" : String)).data)) =
      (if pyStripL ((("x" : String)).data) = [] then ([] : List TagNode)
        else [⟨("text"), String.mk (pyStripL ((("x" : String)).data))⟩])
      ++ [⟨String.mk ((("foo" : String)).data),
          String.mk (pyStripL (((" y" : String)).data))⟩] :=
  ⟨by decide, by decide,
    c10_unterminated_rest_as_content ((("x[foo] y" : String)).data) ((("x" : String)).data)
      ((("foo" : String)).data) (((" y" : String)).data) (by decide) (by decide)⟩

end Md2Html
